import Mathlib

/-!
Shallow embedding of `src/task_2.py` (class `Version`): a parser for
semantic-version-like strings with a shorthand pre-release grammar, and a
three-way comparator.  Pure functions of the source become Lean functions;
Python exceptions become `Except PyError`; the `NotImplemented` return of the
dunder methods becomes `Option.none`.  Machine integers do not overflow here
(Python ints are unbounded), so `Nat`/`Int` are exact.
-/

/-- Python exceptions the version code can raise: `ValueError` (a failed regex
match in `parse`, or a failed `int()` conversion in `replace_shortening`) and
`KeyError` (a failed dict lookup, carrying the missing key). -/
inductive PyError where
  | valueError (msg : String)
  | keyError (key : String)
deriving DecidableEq, Repr

/-- A normalized pre-release identifier: the Python code stores either an
`int` or a `str` in the `pre_release` tuple. -/
inductive Identifier where
  | int (n : Int)
  | str (s : String)
deriving DecidableEq, Repr

/-- A constructed `Version` (task_2.py lines 109-123): the `main_version`
triple of ints and the normalized `pre_release` tuple.  The Python attribute
`pre_release_len` is always `len(pre_release)`, embedded below as a
derived function rather than a stored field. -/
structure Version where
  main_version : Nat × Nat × Nat
  pre_release : List Identifier
deriving DecidableEq, Repr

/-- An arbitrary Python operand handed to `compare` / `__eq__` / `__lt__`:
either a `Version` instance or any non-`Version` object (the `isinstance`
check only looks at the class, so non-`Version` objects need no content). -/
inductive PyObject where
  | ver (v : Version)
  | nonVersion (n : Nat)
deriving DecidableEq, Repr

namespace Version

/-- `len(self.pre_release)`, the value stored in `pre_release_len` (line 123). -/
def pre_release_len (v : Version) : Nat := v.pre_release.length

/-- The stage-priority dict `_PRIORITY` (lines 11-16), as a partial map;
`none` models a missing key (a lookup then raises `KeyError`). -/
def PRIORITY (s : String) : Option Nat :=
  if s = "alpha" then some 0
  else if s = "beta" then some 1
  else if s = "release_candidate" then some 2
  else if s = "release" then some 3
  else none

/-- The shorthand dict `_SHORTENING` (lines 18-23).  Note it does map `r`,
but `replace_shortening`'s guard never forwards `r` to it. -/
def SHORTENING (s : String) : Option String :=
  if s = "a" then some "alpha"
  else if s = "b" then some "beta"
  else if s = "rc" then some "release_candidate"
  else if s = "r" then some "release"
  else none

/-- Maximal leading digit run of a character list: how the greedy `\d*` and
the anchored structure of `_REGEXP` consume the numeric components (none of
the pre-release alternatives can start with a digit, so backtracking never
shortens these runs). -/
def takeDigits : List Char → List Char × List Char
  | [] => ([], [])
  | c :: cs =>
    if c.isDigit then
      let p := takeDigits cs
      (c :: p.1, p.2)
    else ([], c :: cs)

/-- A (maximal) digit run matches the component alternative `0|[1-9]\d*`:
it is exactly "0", or nonempty without a leading zero. -/
def numOk (ds : List Char) : Bool :=
  ds == ['0'] || (!ds.isEmpty && ds.head? != some '0')

/-- The character class `[0-9a-zA-Z-]` of default-form identifiers. -/
def isIdentChar (c : Char) : Bool := c.isDigit || c.isAlpha || c == '-'

/-- The identifier alternation `0|[1-9]\d*|\d*[a-zA-Z-][0-9a-zA-Z-]*` of
`_REGEXP`, applied to one dot-separated piece: "0", or a digit run with no
leading zero, or a nonempty run over `[0-9a-zA-Z-]` containing at least one
letter or hyphen (the digits before the first such character are the `\d*`). -/
def identOk (t : List Char) : Bool :=
  t == ['0'] ||
  (!t.isEmpty && t.all Char.isDigit && t.head? != some '0') ||
  (!t.isEmpty && t.all isIdentChar && t.any (fun c => c.isAlpha || c == '-'))

/-- Split a character list at every '.'.  Identifiers cannot contain '.',
so the regex decomposition `identifier ("." identifier)*` of the default
pre-release body coincides with this split (as does `str.split` at line 117). -/
def splitDots : List Char → List (List Char)
  | [] => [[]]
  | c :: cs =>
    if c = '.' then [] :: splitDots cs
    else
      match splitDots cs with
      | [] => [[c]]
      | p :: ps => (c :: p) :: ps

/-- The shorthand alternation `a|b|rc|r|alpha|beta|release|release_candidate`
of `_REGEXP` (line 8).  Anchored by `$`, the branch matches a suffix iff the
suffix equals one of the tokens. -/
def shorthandTokens : List String :=
  ["a", "b", "rc", "r", "alpha", "beta", "release", "release_candidate"]

/-- Numeric value of a digit run, as Python `int()` reads the matched
major/minor/patch groups (line 112). -/
def digitsToNat (ds : List Char) : Nat :=
  ds.foldl (fun acc c => 10 * acc + (c.toNat - 48)) 0

/-- `Version.parse` (lines 25-37): match `_REGEXP` (lines 5-9) against the
whole input and return the named groups
`(major, minor, patch, shorten_pre_release, default_pre_release)`;
`none` models the regex not matching, upon which `parse` raises
`ValueError(f"{version} is not valid version")`.

Faithfulness to the backtracking regex: `major`, `minor`, `patch` are the
maximal digit runs (no pre-release alternative can begin with a digit), each
must match `0|[1-9]\d*` and be followed by the literal `.` separator; for the
suffix, the outer alternation first tries the optional shorthand group (so a
suffix equal to a shorthand token sets `shorten_pre_release` and leaves
`default_pre_release` unset), then the empty match (both groups unset), then
the optional default group `-(ident ("." ident)*)` (sets only
`default_pre_release`, kept here with its leading '-', as `re` returns it).
These three possibilities are mutually exclusive on any concrete suffix.
ASCII only, as in all the claims' inputs. -/
def parse (version : String) :
    Option (Nat × Nat × Nat × Option String × Option String) :=
  let cs := version.toList
  let p1 := takeDigits cs
  match p1.2 with
  | '.' :: r1 =>
    let p2 := takeDigits r1
    match p2.2 with
    | '.' :: r2 =>
      let p3 := takeDigits r2
      if numOk p1.1 && numOk p2.1 && numOk p3.1 then
        let suffix := p3.2
        if shorthandTokens.contains (String.mk suffix) then
          some (digitsToNat p1.1, digitsToNat p2.1, digitsToNat p3.1,
                some (String.mk suffix), none)
        else if suffix.isEmpty then
          some (digitsToNat p1.1, digitsToNat p2.1, digitsToNat p3.1,
                none, none)
        else
          match suffix with
          | '-' :: rest =>
            if (splitDots rest).all identOk then
              some (digitsToNat p1.1, digitsToNat p2.1, digitsToNat p3.1,
                    none, some (String.mk suffix))
            else none
          | _ => none
      else none
    | _ => none
  | _ => none

/-- Python `int()` applied to a string over the identifier charset
`[0-9a-zA-Z-]` (the only strings `replace_shortening` feeds it): an optional
minus sign followed by a nonempty digit run succeeds (leading zeros are fine
for `int()`), anything else raises `ValueError`. -/
def pyInt (s : String) : Option Int :=
  match s.toList with
  | [] => none
  | '-' :: ds =>
    if !ds.isEmpty && ds.all Char.isDigit then some (-(digitsToNat ds : Int))
    else none
  | ds =>
    if ds.all Char.isDigit then some ((digitsToNat ds : Int))
    else none

/-- `Version.replace_shortening` (lines 39-47).  The guard at line 41 tests
membership in `('a', 'b', 'rc', 'c')` — `'c'` where `'r'` was evidently
meant — so `'c'` reaches the `_SHORTENING` lookup and raises `KeyError`,
while `'r'` falls through to `int('r')` and raises `ValueError`. -/
def replace_shortening (s : String) : Except PyError Identifier :=
  if s = "a" ∨ s = "b" ∨ s = "rc" ∨ s = "c" then
    match SHORTENING s with
    | some full => .ok (.str full)
    | none => .error (.keyError s)
  else if ¬ (s = "alpha" ∨ s = "beta" ∨ s = "release_candidate" ∨ s = "release") then
    match pyInt s with
    | some n => .ok (.int n)
    | none => .error (.valueError ("invalid literal for int with base 10: " ++ s))
  else .ok (.str s)

/-- Left-to-right effectful map over a list, as the generator expression at
line 117 evaluates inside `tuple(...)`: the first exception aborts the whole
construction. -/
def mapExcept (f : α → Except PyError β) : List α → Except PyError (List β)
  | [] => .ok []
  | x :: xs =>
    match f x with
    | .error e => .error e
    | .ok y =>
      match mapExcept f xs with
      | .error e => .error e
      | .ok ys => .ok (y :: ys)

/-- `Version.__init__` (lines 109-123): parse the input (a failed match is
`ValueError`), build `main_version` from the int components, then normalize
the pre-release: a shorthand match becomes a one-element tuple through
`replace_shortening`; a default match is stripped of its leading '-'
(`default_pre_release[1:]`), split on '.', and every piece passed through
`replace_shortening`; no pre-release gives the empty tuple.  `Except.error`
models an exception escaping `__init__`: no `Version` object exists then. -/
def init (version : String) : Except PyError Version :=
  match parse version with
  | none => .error (.valueError (version ++ " is not valid version"))
  | some (major, minor, patch, shorten, dflt) =>
    match shorten with
    | none =>
      match dflt with
      | some d =>
        match mapExcept replace_shortening
            ((splitDots d.toList.tail).map String.mk) with
        | .error e => .error e
        | .ok ids => .ok ⟨(major, minor, patch), ids⟩
      | none => .ok ⟨(major, minor, patch), []⟩
    | some t =>
      match replace_shortening t with
      | .error e => .error e
      | .ok x => .ok ⟨(major, minor, patch), [x]⟩

/-- `Version.partial_compare` (lines 49-67): the identifier comparison rule.
int vs int is numeric three-way; an int is less than any str; a str is
greater than any int; str vs str goes through `_PRIORITY` (the lookup of
`o1` is evaluated first, as at line 66, and a missing key raises
`KeyError`). -/
def partial_compare (o1 o2 : Identifier) : Except PyError Int :=
  match o1, o2 with
  | .int n1, .int n2 => .ok (if n1 > n2 then 1 else if n1 = n2 then 0 else -1)
  | .int _, .str _ => .ok (-1)
  | .str _, .int _ => .ok 1
  | .str s1, .str s2 =>
    match PRIORITY s1 with
    | none => .error (.keyError s1)
    | some q1 =>
      match PRIORITY s2 with
      | none => .error (.keyError s2)
      | some q2 => .ok (if q1 > q2 then 1 else if q1 = q2 then 0 else -1)

/-- Python tuple `<` on the `main_version` triples: lexicographic by
component. -/
def mainLt (x y : Nat × Nat × Nat) : Bool :=
  x.1 < y.1 || (x.1 == y.1 &&
    (x.2.1 < y.2.1 || (x.2.1 == y.2.1 && x.2.2 < y.2.2)))

/-- The `for i in range(min_len)` loop of `compare` (lines 95-100), as
simultaneous recursion: at each index compare the two identifiers with
`partial_compare`, return 1 or -1 at the first non-zero result (an exception
propagates), and fall through with 0 once the shorter tuple is exhausted
(`min_len` iterations done). -/
def cmpIdentifiers : List Identifier → List Identifier → Except PyError Int
  | x :: xs, y :: ys =>
    match partial_compare x y with
    | .error e => .error e
    | .ok c =>
      if c = 1 then .ok 1
      else if c = -1 then .ok (-1)
      else cmpIdentifiers xs ys
  | _, _ => .ok 0

/-- The body of `Version.compare` after the isinstance guard (lines 83-107),
on two `Version` operands: lexicographic `main_version` first; then the
empty-pre-release cases; then the pairwise loop (`cmpIdentifiers`); then the
tuple-length comparison; 0 when everything ties. -/
def compareVersions (self other : Version) : Except PyError Int :=
  if mainLt other.main_version self.main_version then .ok 1
  else if mainLt self.main_version other.main_version then .ok (-1)
  else if self.pre_release_len = 0 ∧ other.pre_release_len = 0 then .ok 0
  else if self.pre_release_len = 0 then .ok 1
  else if other.pre_release_len = 0 then .ok (-1)
  else
    match cmpIdentifiers self.pre_release other.pre_release with
    | .error e => .error e
    | .ok c =>
      if c = 1 then .ok 1
      else if c = -1 then .ok (-1)
      else if other.pre_release_len < self.pre_release_len then .ok 1
      else if self.pre_release_len < other.pre_release_len then .ok (-1)
      else .ok 0

/-- `Version.compare` (lines 69-107) with its isinstance guard (lines 80-81):
a non-`Version` operand yields `NotImplemented`, embedded as `none`. -/
def compare (self : Version) (other : PyObject) : Option (Except PyError Int) :=
  match other with
  | .nonVersion _ => none
  | .ver o => some (compareVersions self o)

/-- `Version.__eq__` (lines 125-131): `NotImplemented` (`none`) for a
non-`Version` operand, else attribute-wise equality. -/
def eqOp (self : Version) (other : PyObject) : Option Bool :=
  match other with
  | .nonVersion _ => none
  | .ver o =>
    some (self.main_version == o.main_version && self.pre_release == o.pre_release)

/-- `Version.__lt__` (lines 133-136): `NotImplemented` (`none`) for a
non-`Version` operand, else `self.compare(other) == -1` (an exception from
`compare` propagates). -/
def ltOp (self : Version) (other : PyObject) : Option (Except PyError Bool) :=
  match other with
  | .nonVersion _ => none
  | .ver o =>
    some (match compareVersions self o with
          | .error e => .error e
          | .ok c => .ok (c == -1))

end Version

section Examples

example : Version.compareVersions ⟨(1, 0, 0), []⟩ ⟨(2, 0, 0), []⟩ = .ok (-1) := rfl
example : Version.compareVersions ⟨(1, 0, 0), [.str "alpha"]⟩ ⟨(1, 0, 0), []⟩ = .ok (-1) := rfl
example : Version.compareVersions ⟨(1, 0, 0), [.str "alpha"]⟩ ⟨(1, 0, 0), [.str "alpha", .int 1]⟩ = .ok (-1) := rfl
example : Version.compareVersions ⟨(1, 0, 1), [.str "beta"]⟩ ⟨(1, 0, 10), [.str "alpha", .str "beta"]⟩ = .ok (-1) := rfl
example : Version.partial_compare (.int 999) (.str "alpha") = .ok (-1) := rfl
example : Version.partial_compare (.str "foo") (.str "alpha") = .error (.keyError "foo") := rfl
example : Version.ltOp ⟨(1, 0, 0), [.str "release_candidate", .int 1]⟩ (.ver ⟨(1, 0, 0), []⟩) = some (.ok true) := rfl

end Examples

example : Version.init "1.0.0-alpha" =
    .ok ⟨(1, 0, 0), [.str "alpha"]⟩ := rfl

example : Version.init "1.0.0a" =
    .ok ⟨(1, 0, 0), [.str "alpha"]⟩ := rfl

example : Version.init "1.0.0r" =
    .error (.valueError "invalid literal for int with base 10: r") := rfl

example : Version.init "1.01.0" =
    .error (.valueError "1.01.0 is not valid version") := rfl

example : Version.init "1.0.0-c" = .error (.keyError "c") := rfl

example : Version.init "1.0.10-alpha.beta" =
    .ok ⟨(1, 0, 10), [.str "alpha", .str "beta"]⟩ := rfl

/-! ## Helper lemmas shared by several claims -/

/-- Python tuple `<` is irreflexive. -/
theorem mainLt_irrefl (x : Nat × Nat × Nat) : Version.mainLt x x = false := by
  simp [Version.mainLt]

/-- Python tuple `<` is asymmetric. -/
theorem mainLt_asymm (x y : Nat × Nat × Nat) (h : Version.mainLt x y = true) :
    Version.mainLt y x = false := by
  simp [Version.mainLt] at h ⊢
  omega

/-- `partial_compare` only ever returns -1, 0 or 1. -/
theorem partial_compare_vals (x y : Identifier) (c : Int)
    (h : Version.partial_compare x y = .ok c) : c = -1 ∨ c = 0 ∨ c = 1 := by
  cases x with
  | int n1 =>
    cases y with
    | int n2 =>
      simp only [Version.partial_compare, Except.ok.injEq] at h
      split at h <;> omega
    | str s2 =>
      simp only [Version.partial_compare, Except.ok.injEq] at h
      omega
  | str s1 =>
    cases y with
    | int n2 =>
      simp only [Version.partial_compare, Except.ok.injEq] at h
      omega
    | str s2 =>
      simp only [Version.partial_compare] at h
      cases hp1 : Version.PRIORITY s1 with
      | none => rw [hp1] at h; cases h
      | some q1 =>
        rw [hp1] at h
        cases hp2 : Version.PRIORITY s2 with
        | none => rw [hp2] at h; cases h
        | some q2 =>
          rw [hp2] at h
          simp only [Except.ok.injEq] at h
          split at h <;> omega

/-! ## The claims -/

/-- C1: the spec claims every shorthand a, b, rc, r yields a one-identifier
pre-release naming the mapped stage.  This holds for a, b and rc, but the
guard of `replace_shortening` (line 41) lists `'c'` where `'r'` was meant, so
`Version("1.0.0r")` falls through to `int("r")` and raises `ValueError`
instead of producing `("release",)` — a slip contradicting the code's own
`_SHORTENING` table, whose `r` entry is unreachable. -/
theorem claim_C1_shorthand_mapping :
    Version.init "1.0.0a" = .ok ⟨(1, 0, 0), [.str "alpha"]⟩ ∧
    Version.init "1.0.0b" = .ok ⟨(1, 0, 0), [.str "beta"]⟩ ∧
    Version.init "1.0.0rc" = .ok ⟨(1, 0, 0), [.str "release_candidate"]⟩ ∧
    Version.init "1.0.0r" =
      .error (.valueError "invalid literal for int with base 10: r") :=
  ⟨rfl, rfl, rfl, rfl⟩

/-- C5: the malformed inputs "1.01.0", "v1.0.0" and "1.0" all fail the regex
match, raising the invalid-format `ValueError` that carries the offending
input; `Except.error` means no `Version` value exists (all-or-nothing). -/
theorem claim_C5_malformed_inputs :
    Version.init "1.01.0" = .error (.valueError "1.01.0 is not valid version") ∧
    Version.init "v1.0.0" = .error (.valueError "v1.0.0 is not valid version") ∧
    Version.init "1.0" = .error (.valueError "1.0 is not valid version") :=
  ⟨rfl, rfl, rfl⟩

/-- C7: "1.0.0a" (shorthand branch) and "1.0.0-alpha" (default branch) both
normalize to the pre-release `("alpha",)`, hence the two constructed Versions
compare EQUAL and `__eq__` returns True. -/
theorem claim_C7_shorthand_equivalence :
    Version.init "1.0.0a" = .ok ⟨(1, 0, 0), [.str "alpha"]⟩ ∧
    Version.init "1.0.0-alpha" = .ok ⟨(1, 0, 0), [.str "alpha"]⟩ ∧
    Version.compareVersions ⟨(1, 0, 0), [.str "alpha"]⟩
      ⟨(1, 0, 0), [.str "alpha"]⟩ = .ok 0 ∧
    Version.eqOp ⟨(1, 0, 0), [.str "alpha"]⟩
      (.ver ⟨(1, 0, 0), [.str "alpha"]⟩) = some true :=
  ⟨rfl, rfl, rfl, rfl⟩

/-- C10: "1.0.0-c" passes the regex (as a default-form identifier), the guard
at line 41 accepts "c", but `_SHORTENING` has no "c" entry, so construction
raises `KeyError("c")` — not the invalid-format `ValueError`. -/
theorem claim_C10_dash_c_keyerror :
    Version.init "1.0.0-c" = .error (.keyError "c") := rfl

/-- C8: `compare`, `__eq__` and `__lt__` applied to any non-`Version` operand
never produce an ordering or coerce the operand: each returns
`NotImplemented`, embedded as `none`. -/
theorem claim_C8_non_version_operand (v : Version) (n : Nat) :
    Version.compare v (.nonVersion n) = none ∧
    Version.eqOp v (.nonVersion n) = none ∧
    Version.ltOp v (.nonVersion n) = none :=
  ⟨rfl, rfl, rfl⟩

/-- C4: the identifier comparison rule: any integer identifier is LESS than
any string identifier (and conversely GREATER when the string is on the
left), regardless of magnitude or stage; two stage tokens compare by the
`_PRIORITY` table, whose fixed values order
alpha < beta < release_candidate < release. -/
theorem claim_C4_identifier_rule :
    (∀ (n : Int) (s : String),
      Version.partial_compare (.int n) (.str s) = .ok (-1) ∧
      Version.partial_compare (.str s) (.int n) = .ok 1) ∧
    (∀ (s t : String) (qs qt : Nat),
      Version.PRIORITY s = some qs → Version.PRIORITY t = some qt →
      Version.partial_compare (.str s) (.str t) =
        .ok (if qs > qt then 1 else if qs = qt then 0 else -1)) ∧
    Version.PRIORITY "alpha" = some 0 ∧
    Version.PRIORITY "beta" = some 1 ∧
    Version.PRIORITY "release_candidate" = some 2 ∧
    Version.PRIORITY "release" = some 3 := by
  refine ⟨fun n s => ⟨rfl, rfl⟩, fun s t qs qt hs ht => ?_, rfl, rfl, rfl, rfl⟩
  simp only [Version.partial_compare, hs, ht]

/-- C4 witness: the rule at concrete identifiers: 999 vs "alpha" both ways,
and "beta" vs "alpha" through the priority table. -/
theorem claim_C4_witness :
    Version.partial_compare (.int 999) (.str "alpha") = .ok (-1) ∧
    Version.partial_compare (.str "alpha") (.int 999) = .ok 1 ∧
    Version.partial_compare (.str "beta") (.str "alpha") = .ok 1 :=
  ⟨(claim_C4_identifier_rule.1 999 "alpha").1,
   (claim_C4_identifier_rule.1 999 "alpha").2,
   claim_C4_identifier_rule.2.1 "beta" "alpha" 1 0 rfl rfl⟩

/-- C2: with equal `main_version` triples and exactly one empty pre-release,
`compare` returns LESS (-1) for the version carrying the pre-release and
GREATER (1) for the one without. -/
theorem claim_C2_prerelease_sorts_lesser (a b : Version)
    (hm : a.main_version = b.main_version)
    (ha : a.pre_release ≠ []) (hb : b.pre_release = []) :
    Version.compareVersions a b = .ok (-1) ∧
    Version.compareVersions b a = .ok 1 := by
  have hlb : b.pre_release_len = 0 := by
    simp [Version.pre_release_len, hb]
  have hla : a.pre_release_len ≠ 0 := by
    simpa [Version.pre_release_len, List.length_eq_zero] using ha
  constructor <;>
    simp [Version.compareVersions, hm, mainLt_irrefl, hla, hlb]

/-- C2 witness: the spec's instance `Version("1.0.0-alpha") < Version("1.0.0")`:
the parsed values, and both directions of the comparison. -/
theorem claim_C2_witness :
    Version.init "1.0.0-alpha" = .ok ⟨(1, 0, 0), [.str "alpha"]⟩ ∧
    Version.init "1.0.0" = .ok ⟨(1, 0, 0), []⟩ ∧
    Version.compareVersions ⟨(1, 0, 0), [.str "alpha"]⟩ ⟨(1, 0, 0), []⟩ = .ok (-1) ∧
    Version.compareVersions ⟨(1, 0, 0), []⟩ ⟨(1, 0, 0), [.str "alpha"]⟩ = .ok 1 :=
  ⟨rfl, rfl,
   (claim_C2_prerelease_sorts_lesser ⟨(1, 0, 0), [.str "alpha"]⟩ ⟨(1, 0, 0), []⟩
      rfl (by simp) rfl).1,
   (claim_C2_prerelease_sorts_lesser ⟨(1, 0, 0), [.str "alpha"]⟩ ⟨(1, 0, 0), []⟩
      rfl (by simp) rfl).2⟩

/-- The loop returns 0 immediately when the left tuple is empty
(`min_len = 0`). -/
theorem cmpIdentifiers_nil_left (ys : List Identifier) :
    Version.cmpIdentifiers [] ys = .ok 0 := by
  cases ys <;> rfl

/-- The loop returns 0 immediately when the right tuple is empty. -/
theorem cmpIdentifiers_nil_right (xs : List Identifier) :
    Version.cmpIdentifiers xs [] = .ok 0 := by
  cases xs <;> rfl

/-- If every identifier pair up to the shorter length compares equal, the
loop falls through with 0. -/
theorem cmpIdentifiers_all_zero : ∀ (xs ys : List Identifier),
    (∀ i, i < min xs.length ys.length →
      Version.partial_compare (xs.getD i (.int 0)) (ys.getD i (.int 0)) = .ok 0) →
    Version.cmpIdentifiers xs ys = .ok 0
  | [], ys, _ => cmpIdentifiers_nil_left ys
  | _ :: _, [], _ => cmpIdentifiers_nil_right _
  | x :: xs, y :: ys, h => by
    have h0 : Version.partial_compare x y = .ok 0 := by
      simpa using h 0 (by simp)
    have rest := cmpIdentifiers_all_zero xs ys (fun i hi => by
      have := h (i + 1) (by simp only [List.length_cons]; omega)
      simpa using this)
    simp [Version.cmpIdentifiers, h0, rest]

/-- If the pairs before index `j` compare equal and the pair at `j` does not,
the loop returns the result at `j`. -/
theorem cmpIdentifiers_first : ∀ (xs ys : List Identifier) (j : Nat) (c : Int),
    j < min xs.length ys.length →
    (∀ i, i < j →
      Version.partial_compare (xs.getD i (.int 0)) (ys.getD i (.int 0)) = .ok 0) →
    Version.partial_compare (xs.getD j (.int 0)) (ys.getD j (.int 0)) = .ok c →
    c ≠ 0 →
    Version.cmpIdentifiers xs ys = .ok c
  | [], _, _, _, hj, _, _, _ => by simp at hj
  | _ :: _, [], _, _, hj, _, _, _ => by simp at hj
  | x :: xs, y :: ys, 0, c, _, _, hjc, hc => by
    simp only [List.getD_cons_zero] at hjc
    rcases partial_compare_vals _ _ _ hjc with rfl | rfl | rfl
    · simp [Version.cmpIdentifiers, hjc]
    · exact absurd rfl hc
    · simp [Version.cmpIdentifiers, hjc]
  | x :: xs, y :: ys, j + 1, c, hj, hbef, hjc, hc => by
    have h0 : Version.partial_compare x y = .ok 0 := by
      simpa using hbef 0 (by omega)
    have rest := cmpIdentifiers_first xs ys j c
      (by simp only [List.length_cons] at hj; omega)
      (fun i hi => by simpa using hbef (i + 1) (by omega))
      (by simpa using hjc) hc
    simp [Version.cmpIdentifiers, h0, rest]

/-- With equal `main_version` triples and two non-empty pre-releases,
`compare` is the loop followed by the tuple-length comparison. -/
theorem compareVersions_nonempty (a b : Version)
    (hm : a.main_version = b.main_version)
    (ha : a.pre_release ≠ []) (hb : b.pre_release ≠ []) :
    Version.compareVersions a b =
      match Version.cmpIdentifiers a.pre_release b.pre_release with
      | .error e => .error e
      | .ok c =>
        if c = 1 then .ok 1
        else if c = -1 then .ok (-1)
        else if b.pre_release_len < a.pre_release_len then .ok 1
        else if a.pre_release_len < b.pre_release_len then .ok (-1)
        else .ok 0 := by
  have hla : a.pre_release_len ≠ 0 := by
    simpa [Version.pre_release_len, List.length_eq_zero] using ha
  have hlb : b.pre_release_len ≠ 0 := by
    simpa [Version.pre_release_len, List.length_eq_zero] using hb
  simp [Version.compareVersions, hm, mainLt_irrefl, hla, hlb]

/-- C3: with equal `main_version` triples and both pre-releases non-empty,
`compare` walks identifier pairs index by index up to the shorter tuple's
length: the first non-equal pair's result is returned; when every compared
pair is equal the longer tuple sorts GREATER, and EQUAL requires the lengths
to match too. -/
theorem claim_C3_pairwise_then_length (a b : Version)
    (hm : a.main_version = b.main_version)
    (ha : a.pre_release ≠ []) (hb : b.pre_release ≠ []) :
    (∀ (j : Nat) (c : Int),
      j < min a.pre_release.length b.pre_release.length →
      (∀ i, i < j → Version.partial_compare (a.pre_release.getD i (.int 0))
          (b.pre_release.getD i (.int 0)) = .ok 0) →
      Version.partial_compare (a.pre_release.getD j (.int 0))
          (b.pre_release.getD j (.int 0)) = .ok c →
      c ≠ 0 →
      Version.compareVersions a b = .ok c) ∧
    ((∀ i, i < min a.pre_release.length b.pre_release.length →
        Version.partial_compare (a.pre_release.getD i (.int 0))
          (b.pre_release.getD i (.int 0)) = .ok 0) →
      Version.compareVersions a b =
        .ok (if b.pre_release.length < a.pre_release.length then 1
             else if a.pre_release.length < b.pre_release.length then -1
             else 0)) := by
  constructor
  · intro j c hj hbef hjc hc
    rw [compareVersions_nonempty a b hm ha hb,
      cmpIdentifiers_first a.pre_release b.pre_release j c hj hbef hjc hc]
    rcases partial_compare_vals _ _ _ hjc with rfl | rfl | rfl
    · norm_num
    · exact absurd rfl hc
    · norm_num
  · intro hall
    rw [compareVersions_nonempty a b hm ha hb,
      cmpIdentifiers_all_zero _ _ hall]
    simp only [Version.pre_release_len]
    norm_num
    split_ifs <;> simp

/-- C3 witness: ("alpha") vs ("alpha", 1): the only compared pair ties, so
the longer pre-release wins and the shorter side compares LESS. -/
theorem claim_C3_witness :
    Version.compareVersions ⟨(1, 0, 0), [.str "alpha"]⟩
      ⟨(1, 0, 0), [.str "alpha", .int 1]⟩ = .ok (-1) := by
  have h := (claim_C3_pairwise_then_length ⟨(1, 0, 0), [.str "alpha"]⟩
    ⟨(1, 0, 0), [.str "alpha", .int 1]⟩ rfl (by simp) (by simp)).2
    (fun i hi => by
      have : i = 0 := by simpa using hi
      subst this
      rfl)
  simpa using h

/-- The identifier rule is antisymmetric on successful comparisons. -/
theorem partial_compare_antisym (x y : Identifier) (c : Int)
    (h : Version.partial_compare x y = .ok c) :
    Version.partial_compare y x = .ok (-c) := by
  cases x with
  | int n1 =>
    cases y with
    | int n2 =>
      simp only [Version.partial_compare, Except.ok.injEq] at h ⊢
      split_ifs at h ⊢ <;> omega
    | str s2 =>
      simp only [Version.partial_compare, Except.ok.injEq] at h ⊢
      omega
  | str s1 =>
    cases y with
    | int n2 =>
      simp only [Version.partial_compare, Except.ok.injEq] at h ⊢
      omega
    | str s2 =>
      simp only [Version.partial_compare] at h ⊢
      cases hp1 : Version.PRIORITY s1 with
      | none => simp [hp1] at h
      | some q1 =>
        cases hp2 : Version.PRIORITY s2 with
        | none => simp [hp1, hp2] at h
        | some q2 =>
          simp only [hp1, hp2, Except.ok.injEq] at h ⊢
          split_ifs at h ⊢ <;> omega

/-- The pairwise loop is antisymmetric on successful comparisons. -/
theorem cmpIdentifiers_antisym : ∀ (xs ys : List Identifier) (c : Int),
    Version.cmpIdentifiers xs ys = .ok c →
    Version.cmpIdentifiers ys xs = .ok (-c)
  | [], ys, c, h => by
    rw [cmpIdentifiers_nil_left] at h
    injection h with e
    subst e
    rw [cmpIdentifiers_nil_right]
    norm_num
  | x :: xs, [], c, h => by
    rw [cmpIdentifiers_nil_right] at h
    injection h with e
    subst e
    rw [cmpIdentifiers_nil_left]
    norm_num
  | x :: xs, y :: ys, c, h => by
    cases hd : Version.partial_compare x y with
    | error e => simp [Version.cmpIdentifiers, hd] at h
    | ok d =>
      have hyx := partial_compare_antisym x y d hd
      by_cases h1 : d = 1
      · subst h1
        simp only [Version.cmpIdentifiers, hd, if_pos rfl] at h
        injection h with e
        subst e
        simp [Version.cmpIdentifiers, hyx]
      · by_cases h2 : d = -1
        · subst h2
          simp [Version.cmpIdentifiers, hd] at h
          subst h
          simp [Version.cmpIdentifiers, hyx]
        · have hrec : Version.cmpIdentifiers xs ys = .ok c := by
            simpa [Version.cmpIdentifiers, hd, h1, h2] using h
          have IH := cmpIdentifiers_antisym xs ys c hrec
          have hn1 : ¬(-d = 1) := by omega
          have hn2 : ¬(-d = -1) := by omega
          simp [Version.cmpIdentifiers, hyx, hn1, hn2, IH]

/-- `compare` on two `Version` operands is antisymmetric: swapping the
operands negates a successful result. -/
theorem compareVersions_antisym (a b : Version) (c : Int)
    (h : Version.compareVersions a b = .ok c) :
    Version.compareVersions b a = .ok (-c) := by
  unfold Version.compareVersions at h ⊢
  by_cases hba : Version.mainLt b.main_version a.main_version = true
  · have hab := mainLt_asymm _ _ hba
    simp [hba, hab] at h ⊢
    all_goals omega
  · have hba' := (Bool.not_eq_true _).mp hba
    by_cases hab : Version.mainLt a.main_version b.main_version = true
    · have hba2 := mainLt_asymm _ _ hab
      simp [hab, hba'] at h ⊢
      all_goals omega
    · have hab' := (Bool.not_eq_true _).mp hab
      by_cases ha0 : a.pre_release_len = 0 <;> by_cases hb0 : b.pre_release_len = 0
      · simp [hba', hab', ha0, hb0] at h ⊢
        all_goals omega
      · simp [hba', hab', ha0, hb0] at h ⊢
        all_goals omega
      · simp [hba', hab', ha0, hb0] at h ⊢
        all_goals omega
      · cases hcmp : Version.cmpIdentifiers a.pre_release b.pre_release with
        | error e => simp [hba', hab', ha0, hb0, hcmp] at h
        | ok d =>
          have hback := cmpIdentifiers_antisym _ _ d hcmp
          by_cases hd1 : d = 1
          · subst hd1
            simp [hba', hab', ha0, hb0, hcmp, hback] at h ⊢
            all_goals omega
          · by_cases hd2 : d = -1
            · subst hd2
              simp [hba', hab', ha0, hb0, hcmp, hback] at h ⊢
              all_goals omega
            · have hn1 : ¬(-d = 1) := by omega
              have hn2 : ¬(-d = -1) := by omega
              rcases Nat.lt_trichotomy a.pre_release_len b.pre_release_len with hl | hl | hl
              · simp [hba', hab', ha0, hb0, hcmp, hback, hd1, hd2, hn1, hn2, hl,
                  Nat.lt_asymm hl] at h ⊢
                all_goals omega
              · simp [hba', hab', ha0, hb0, hcmp, hback, hd1, hd2, hn1, hn2, hl] at h ⊢
                all_goals omega
              · simp [hba', hab', ha0, hb0, hcmp, hback, hd1, hd2, hn1, hn2, hl,
                  Nat.lt_asymm hl] at h ⊢
                all_goals omega

/-- C6: antisymmetry of the comparator over successfully parsed Versions:
`compare(a, b)` is GREATER exactly when `compare(b, a)` is LESS. -/
theorem claim_C6_antisymmetry (sa sb : String) (a b : Version)
    (_ha : Version.init sa = .ok a) (_hb : Version.init sb = .ok b) :
    (Version.compareVersions a b = .ok 1 ↔
     Version.compareVersions b a = .ok (-1)) := by
  constructor
  · intro h
    simpa using compareVersions_antisym a b 1 h
  · intro h
    simpa using compareVersions_antisym b a (-1) h

/-- C6 witness: the antisymmetry instance for "2.0.0" versus "1.0.0". -/
theorem claim_C6_witness :
    Version.compareVersions ⟨(2, 0, 0), []⟩ ⟨(1, 0, 0), []⟩ = .ok 1 ↔
    Version.compareVersions ⟨(1, 0, 0), []⟩ ⟨(2, 0, 0), []⟩ = .ok (-1) :=
  claim_C6_antisymmetry "2.0.0" "1.0.0" ⟨(2, 0, 0), []⟩ ⟨(1, 0, 0), []⟩ rfl rfl

/-- Every successful result of `replace_shortening` is an integer or one of
the four canonical stage names (the guard paths that would produce anything
else all raise instead). -/
theorem replace_shortening_canonical (s : String) (x : Identifier)
    (h : Version.replace_shortening s = .ok x) :
    (∃ n, x = Identifier.int n) ∨ x = .str "alpha" ∨ x = .str "beta" ∨
      x = .str "release_candidate" ∨ x = .str "release" := by
  unfold Version.replace_shortening at h
  split at h
  · rename_i hg
    rcases hg with rfl | rfl | rfl | rfl
    · simp only [show Version.SHORTENING "a" = some "alpha" from rfl] at h
      injection h with e
      subst e
      simp
    · simp only [show Version.SHORTENING "b" = some "beta" from rfl] at h
      injection h with e
      subst e
      simp
    · simp only [show Version.SHORTENING "rc" = some "release_candidate" from rfl] at h
      injection h with e
      subst e
      simp
    · simp [show Version.SHORTENING "c" = none from rfl] at h
  · split at h
    · cases hp : Version.pyInt s with
      | none => simp [hp] at h
      | some n =>
        simp only [hp] at h
        injection h with e
        subst e
        exact Or.inl ⟨n, rfl⟩
    · rename_i hcanon
      rcases not_not.mp hcanon with rfl | rfl | rfl | rfl <;>
        (injection h with e; subst e; simp)

/-- Any member of a successful `mapExcept` output comes from a successful
application of the function to a member of the input. -/
theorem mapExcept_mem {α β : Type} (f : α → Except PyError β) :
    ∀ (l : List α) (ys : List β), Version.mapExcept f l = .ok ys →
      ∀ y ∈ ys, ∃ x ∈ l, f x = .ok y
  | [], ys, h, y, hy => by
    simp only [Version.mapExcept] at h
    injection h with e
    subst e
    simp at hy
  | x :: xs, ys, h, y, hy => by
    cases hfx : f x with
    | error e => simp [Version.mapExcept, hfx] at h
    | ok b =>
      cases hm : Version.mapExcept f xs with
      | error e => simp [Version.mapExcept, hfx, hm] at h
      | ok bs =>
        simp only [Version.mapExcept, hfx, hm] at h
        injection h with e
        subst e
        rcases List.mem_cons.mp hy with rfl | hy2
        · exact ⟨x, List.mem_cons_self x xs, hfx⟩
        · obtain ⟨x2, hx2, hfx2⟩ := mapExcept_mem f xs bs hm y hy2
          exact ⟨x2, List.mem_cons_of_mem _ hx2, hfx2⟩

/-- Invariant of construction: every identifier in the pre-release of a
successfully built `Version` is an integer or a canonical stage name. -/
theorem init_canonical (s : String) (v : Version) (h : Version.init s = .ok v) :
    ∀ x ∈ v.pre_release,
      (∃ n, x = Identifier.int n) ∨ x = .str "alpha" ∨ x = .str "beta" ∨
        x = .str "release_candidate" ∨ x = .str "release" := by
  unfold Version.init at h
  cases hp : Version.parse s with
  | none => simp [hp] at h
  | some tup =>
    obtain ⟨major, minor, patch, shorten, dflt⟩ := tup
    cases shorten with
    | some t =>
      cases hrs : Version.replace_shortening t with
      | error e => simp [hp, hrs] at h
      | ok x0 =>
        simp only [hp, hrs] at h
        injection h with e
        subst e
        intro x hx
        have hx0 : x = x0 := by simpa using hx
        subst hx0
        exact replace_shortening_canonical t x hrs
    | none =>
      cases dflt with
      | none =>
        simp only [hp] at h
        injection h with e
        subst e
        intro x hx
        simp at hx
      | some d =>
        simp only [hp] at h
        cases hm : Version.mapExcept Version.replace_shortening
            ((Version.splitDots d.toList.tail).map String.mk) with
        | error e =>
          rw [hm] at h
          simp at h
        | ok ids =>
          rw [hm] at h
          simp only [Except.ok.injEq] at h
          subst h
          intro x hx
          obtain ⟨piece, _, hpc⟩ := mapExcept_mem _ _ _ hm x hx
          exact replace_shortening_canonical piece x hpc

/-- On canonical identifiers the priority lookup cannot fail, so
`partial_compare` always succeeds. -/
theorem partial_compare_total (x y : Identifier)
    (hx : (∃ n, x = Identifier.int n) ∨ x = .str "alpha" ∨ x = .str "beta" ∨
      x = .str "release_candidate" ∨ x = .str "release")
    (hy : (∃ n, y = Identifier.int n) ∨ y = .str "alpha" ∨ y = .str "beta" ∨
      y = .str "release_candidate" ∨ y = .str "release") :
    ∃ c, Version.partial_compare x y = .ok c := by
  rcases hx with ⟨n, rfl⟩ | rfl | rfl | rfl | rfl <;>
    rcases hy with ⟨m, rfl⟩ | rfl | rfl | rfl | rfl <;>
    exact ⟨_, rfl⟩

/-- On canonical pre-release tuples the pairwise loop always succeeds. -/
theorem cmpIdentifiers_total : ∀ (xs ys : List Identifier),
    (∀ x ∈ xs, (∃ n, x = Identifier.int n) ∨ x = .str "alpha" ∨ x = .str "beta" ∨
      x = .str "release_candidate" ∨ x = .str "release") →
    (∀ y ∈ ys, (∃ n, y = Identifier.int n) ∨ y = .str "alpha" ∨ y = .str "beta" ∨
      y = .str "release_candidate" ∨ y = .str "release") →
    ∃ c, Version.cmpIdentifiers xs ys = .ok c
  | [], ys, _, _ => ⟨0, cmpIdentifiers_nil_left ys⟩
  | _ :: _, [], _, _ => ⟨0, cmpIdentifiers_nil_right _⟩
  | x :: xs, y :: ys, hx, hy => by
    obtain ⟨d, hd⟩ := partial_compare_total x y (hx x (by simp)) (hy y (by simp))
    obtain ⟨c, hc⟩ := cmpIdentifiers_total xs ys
      (fun u hu => hx u (by simp [hu])) (fun u hu => hy u (by simp [hu]))
    by_cases h1 : d = 1
    · exact ⟨1, by simp [Version.cmpIdentifiers, hd, h1]⟩
    · by_cases h2 : d = -1
      · exact ⟨-1, by simp [Version.cmpIdentifiers, hd, h1, h2]⟩
      · exact ⟨c, by simp [Version.cmpIdentifiers, hd, h1, h2, hc]⟩

/-- On canonical pre-release tuples `compare` always succeeds: the
undefined-priority (`KeyError`) path is unreachable. -/
theorem compareVersions_total (a b : Version)
    (hxa : ∀ x ∈ a.pre_release,
      (∃ n, x = Identifier.int n) ∨ x = .str "alpha" ∨ x = .str "beta" ∨
        x = .str "release_candidate" ∨ x = .str "release")
    (hxb : ∀ x ∈ b.pre_release,
      (∃ n, x = Identifier.int n) ∨ x = .str "alpha" ∨ x = .str "beta" ∨
        x = .str "release_candidate" ∨ x = .str "release") :
    ∃ c, Version.compareVersions a b = .ok c := by
  obtain ⟨c, hc⟩ := cmpIdentifiers_total a.pre_release b.pre_release hxa hxb
  unfold Version.compareVersions
  simp only [hc]
  split_ifs <;> exact ⟨_, rfl⟩

/-- C9: every successfully constructed Version carries only integers and
canonical stage names in its pre-release, and consequently comparing two
successfully constructed Versions never hits the missing-priority path:
`compare` always returns an ordering. -/
theorem claim_C9_invariant (sa sb : String) (a b : Version)
    (ha : Version.init sa = .ok a) (hb : Version.init sb = .ok b) :
    (∀ x ∈ a.pre_release,
      (∃ n, x = Identifier.int n) ∨ x = .str "alpha" ∨ x = .str "beta" ∨
        x = .str "release_candidate" ∨ x = .str "release") ∧
    ∃ c, Version.compareVersions a b = .ok c :=
  ⟨init_canonical sa a ha,
   compareVersions_total a b (init_canonical sa a ha) (init_canonical sb b hb)⟩

/-- C9 witness: the invariant and a successful comparison for the parsed
Versions of "1.0.0-alpha.1" and "1.0.0b". -/
theorem claim_C9_witness :
    (∀ x ∈ (Version.mk (1, 0, 0) [.str "alpha", .int 1]).pre_release,
      (∃ n, x = Identifier.int n) ∨ x = .str "alpha" ∨ x = .str "beta" ∨
        x = .str "release_candidate" ∨ x = .str "release") ∧
    ∃ c, Version.compareVersions ⟨(1, 0, 0), [.str "alpha", .int 1]⟩
      ⟨(1, 0, 0), [.str "beta"]⟩ = .ok c :=
  claim_C9_invariant "1.0.0-alpha.1" "1.0.0b"
    ⟨(1, 0, 0), [.str "alpha", .int 1]⟩ ⟨(1, 0, 0), [.str "beta"]⟩ rfl rfl
